import Mathlib

/-!
Shallow embedding of the `speakleash` client library
(`src/speakleash/__init__.py`, the newer revision that supersedes
`src/speakleash/SpeakleashDataset.py`).

Python values flowing through the library are JSON-shaped; we model them by
the inductive `Json` below, identifying Python `None` with `Json.null`
(consistently with the fact that `json.dump(None)` writes `null` and
`json.load` of `null` yields `None`).  Numbers are modelled by `Rat`.
The filesystem is modelled as an association list from paths to contents
(an ideal filesystem: writes and removals succeed), and the network as a
function from URLs to either a transport error or a response.  Python
exceptions that the source does not catch are modelled with `Except PyErr`.
String manipulation is modelled over `List Char` so that every definition
evaluates by kernel reduction.
-/

deriving instance DecidableEq for Except

namespace Speakleash

/-- JSON-shaped Python values. `null` doubles as Python `None`. -/
inductive Json where
  | null
  | bool (b : Bool)
  | num (q : Rat)
  | str (s : String)
  | arr (elems : List Json)
  | obj (fields : List (String × Json))

/-- Python truthiness (`if data:`) of a JSON-shaped value. -/
def Json.truthy : Json → Bool
  | .null => false
  | .bool b => b
  | .num q => !(q == 0)
  | .str s => !(s == "")
  | .arr xs => !xs.isEmpty
  | .obj kvs => !kvs.isEmpty

/-- Lookup in a JSON object / Python dict (association list model; Python
dicts have no duplicate keys, so we read the first binding). -/
def objGet (kvs : List (String × Json)) (k : String) : Option Json :=
  (kvs.find? (fun kv => kv.1 == k)).map (fun kv => kv.2)

/-- Python `d.get(k, default)` on a dict. -/
def pyDictGet (kvs : List (String × Json)) (k : String) (default : Json) : Json :=
  (objGet kvs k).getD default

/-! ### Character-list string helpers

`String` functions from the core library are not kernel-reducible, so the
model works on `String.data`. -/

/-- Does the first list occur as a prefix of the second? -/
def isPrefixL : List Char → List Char → Bool
  | [], _ => true
  | _ :: _, [] => false
  | p :: ps, c :: cs => p == c && isPrefixL ps cs

/-- Strip a prefix, or fail. -/
def stripPrefixL : List Char → List Char → Option (List Char)
  | [], s => some s
  | _ :: _, [] => none
  | p :: ps, c :: cs => if p == c then stripPrefixL ps cs else none

/-- Strip a suffix, or fail. -/
def stripSuffixL (suf s : List Char) : Option (List Char) :=
  (stripPrefixL suf.reverse s.reverse).map List.reverse

/-- Python `needle in s` for strings (substring containment). -/
def containsSubL (needle : List Char) : List Char → Bool
  | [] => needle.isEmpty
  | c :: cs => isPrefixL needle (c :: cs) || containsSubL needle cs

/-- Python `s.split(sep)` for a one-character separator; `"".split(sep)`
yields `[""]`, matching Python. -/
def splitOnChar (sep : Char) : List Char → List (List Char)
  | [] => [[]]
  | c :: cs =>
    match splitOnChar sep cs, c == sep with
    | r, true => [] :: r
    | [], false => [[c]]
    | g :: gs, false => (c :: g) :: gs

/-- Python `s.split("\n")`. -/
def pySplitLines (s : String) : List String :=
  (splitOnChar (Char.ofNat 10) s.data).map String.mk

/-- Python `s.upper()` (ASCII, which covers the label data in use). -/
def pyUpper (s : String) : String := String.mk (s.data.map Char.toUpper)

/-- Does the character occur in the list? -/
def hasChar (c : Char) : List Char → Bool
  | [] => false
  | x :: xs => x == c || hasChar c xs

/-- Model of `os.path.join(dir, file)` for a relative `file` component. -/
def pathJoin (dir file : String) : String := dir ++ "/" ++ file

/-! ### Errors, network, responses -/

/-- Transport-level failures raised by `requests.get`. -/
inductive NetErr where
  | connectionError
  | timeout
deriving DecidableEq

/-- Python exceptions that the source can raise past its own boundary. -/
inductive PyErr where
  | valueError
  | indexError
  | typeError
  | attributeError
  | keyError
deriving DecidableEq

/-- An HTTP response: `ok` is `requests`' 2xx/3xx flag, `text` the decoded
body, `textJson` the result of `json.loads(text)` (or `none` when the body
does not parse), `contentLength` the parsed `content-length` header, and
`chunks` the byte chunks yielded by `iter_content` (bytes as `Nat`). -/
structure GetResponse where
  ok : Bool
  text : String
  textJson : Option Json
  contentLength : Option Nat
  chunks : List (List Nat)

/-- The network: each URL yields a transport error or a response. -/
def Net : Type := String → Except NetErr GetResponse

/-! ### FileManager (JSON side)

`load_json` swallows every error and returns `None` for a missing file;
`save_json` overwrites.  The filesystem is path-keyed, so a write replaces
any previous file at the same path. -/

/-- The JSON file store: association list from paths to contents. -/
def FS : Type := List (String × Json)

/-- Model of `FileManager.load_json`: the parsed content, or `None` when absent. -/
def load_json (fs : FS) (file : String) : Option Json :=
  (fs.find? (fun kv => kv.1 == file)).map (fun kv => kv.2)

/-- Model of `FileManager.save_json`: write (overwriting) `data` at `file`. -/
def save_json (data : Json) (file : String) (fs : FS) : FS :=
  (file, data) :: fs.filter (fun kv => !(kv.1 == file))

/-! ### WebRequester -/

/-- Model of `WebRequester.get_json`: any transport error, non-2xx status or parse
failure yields `None` (modelled as `Json.null`). -/
def get_json (net : Net) (url : String) : Json :=
  match net url with
  | .error _ => .null
  | .ok r => if r.ok then r.textJson.getD .null else .null

/-- Model of `WebRequester.get_text`: body text on a 2xx response, otherwise `None`. -/
def get_text (net : Net) (url : String) : Option String :=
  match net url with
  | .error _ => none
  | .ok r => if r.ok then some r.text else none

/-- The download loop: `n` is the progress-bar counter, `acc` the bytes
written to the open file so far. -/
def download_loop : List (List Nat) → Nat → List Nat → Nat × List Nat
  | [], n, acc => (n, acc)
  | c :: rest, n, acc => download_loop rest (n + c.length) (acc ++ c)

/-- Outcome of `WebRequester.download_file`: the returned flag and the bytes
the call wrote to the destination file. -/
structure DownloadResult where
  flag : Bool
  fileBytes : List Nat
deriving DecidableEq

/-- Model of `WebRequester.download_file url filepath`, as a function of the result of
`requests.get(url, stream=True)`.  The source has no `try` block and never
inspects the HTTP status: a transport error propagates, and otherwise the
body (even of an error response) is streamed to the file; the flag is
`total_size_in_bytes == progress_bar.n`. -/
def download_file (resp : Except NetErr GetResponse) : Except NetErr DownloadResult :=
  match resp with
  | .error e => .error e
  | .ok r =>
    let total := r.contentLength.getD 0
    let nFile := download_loop r.chunks 0 []
    .ok ⟨total == nFile.1, nFile.2⟩

/-! ### StructureDownloader -/

/-- A wall-clock instant, as far as `strftime` needs it. -/
structure DateTime where
  month : Nat
  day : Nat
  year : Nat
  hour : Nat

/-- One decimal digit as a character. -/
def digitChar (n : Nat) : Char := Char.ofNat (48 + n % 10)

/-- Zero-padded two-digit rendering, as `%m`/`%d`/`%y`/`%H` produce. -/
def two (n : Nat) : String := String.mk [digitChar (n / 10), digitChar (n % 10)]

/-- The time-bucket suffix without its leading dash. -/
def bucketCore (hourly : Bool) (t : DateTime) : String :=
  two t.month ++ "_" ++ two t.day ++ "_" ++ two (t.year % 100) ++
    (if hourly then "_" ++ two t.hour else "")

/-- Model of `datetime.now().strftime("-%m_%d_%y_%H" if hourly else "-%m_%d_%y")`. -/
def strftimeBucket (hourly : Bool) (t : DateTime) : String :=
  "-" ++ bucketCore hourly t

/-- Does `path` match the glob `dir/hash-*.json` (where `*` matches any
run of characters other than the path separator)? -/
def glob_match (dir hash : String) (path : String) : Bool :=
  match stripPrefixL (pathJoin dir (hash ++ "-")).data path.data with
  | none => false
  | some rest =>
    match stripSuffixL (".json").data rest with
    | none => false
    | some mid => !hasChar (Char.ofNat 47) mid

/-- Model of `StructureDownloader._remove_old_files`: delete every cache file whose
name matches `md5(url)-*.json` in the replication directory. -/
def remove_old_files (dir hash : String) (fs : FS) : FS :=
  fs.filter (fun kv => !(glob_match dir hash kv.1))

/-- The `data = load_json(file); if data: return data` test: a cache hit
needs the file to exist and its parsed content to be truthy. -/
def cacheHit : Option Json → Option Json
  | some d => if d.truthy then some d else none
  | none => none

/-- Result of `get_structure`: the returned value, the filesystem afterwards,
and whether the call went to the network. -/
structure StructResult where
  data : Json
  fs : FS
  fetched : Bool

/-- The cache-file path `get_structure` uses for `url` in the current bucket. -/
def structFile (md5 : String → String) (hourly : Bool) (t : DateTime)
    (dir url : String) : String :=
  pathJoin dir (md5 url ++ strftimeBucket hourly t ++ ".json")

/-- Model of `StructureDownloader.get_structure url hourly`, parametrised by the
network, the digest function (`hashlib.md5(...).hexdigest()`), the current
time and the replication directory. -/
def get_structure (net : Net) (md5 : String → String) (hourly : Bool)
    (t : DateTime) (dir : String) (fs : FS) (url : String) : StructResult :=
  let ts := strftimeBucket hourly t
  let hash := md5 url
  let file := pathJoin dir (hash ++ ts ++ ".json")
  match cacheHit (load_json fs file) with
  | some d => ⟨d, fs, false⟩
  | none =>
    let fs1 := remove_old_files dir hash fs
    let data := get_json net url
    ⟨data, save_json data file fs1, true⟩

/-! ### CategoryManager -/

/-- The remote label-list URL for a language. -/
def categoriesUrl (lang : String) : String :=
  "https://speakleash.space/datasets_text/categories_" ++ lang ++ ".txt"

/-- The fetch path of `CategoryManager.__categories`:
`data = WebRequester.get_text(url); categories = data.split("\n")`.
When `get_text` returns `None` (transport failure or non-2xx), the
attribute access `None.split` raises. -/
def categories_fetch (net : Net) (lang : String) : Except PyErr (List String) :=
  match get_text net (categoriesUrl lang) with
  | none => .error .attributeError
  | some t => .ok (pySplitLines t)

/-- Model of `CategoryManager.__categories lang`: `cached` is the result of
`FileManager.load_text` on the temp-directory cache file (`none` when the
file is missing/unreadable); a truthy (non-empty) cached list is returned
as-is, otherwise the label list is fetched remotely. -/
def categories_load (net : Net) (cached : Option (List String)) (lang : String) :
    Except PyErr (List String) :=
  match cached with
  | some cs => if cs.isEmpty then categories_fetch net lang else .ok cs
  | none => categories_fetch net lang

/-- Python `xs.index(x)` on a list of strings: the first index of `x`, or a
`ValueError` when `x` does not occur. -/
def list_index (xs : List String) (x : String) : Except PyErr Nat :=
  match xs.indexOf? x with
  | some i => .ok i
  | none => .error .valueError

/-- Model of `CategoryManager.__get_pl_category name lang` over the two label lists:
for `lang == "en"` it is `categories_pl[categories_en.index(name)]` (so a
missing name raises `ValueError`, and a too-short primary list raises
`IndexError`); for any other `lang` it is `None`. -/
def get_pl_category (cpl cen : List String) (name lang : String) :
    Except PyErr (Option String) :=
  if lang == "en" then
    match list_index cen name with
    | .error e => .error e
    | .ok i =>
      match cpl.get? i with
      | some v => .ok (some v)
      | none => .error .indexError
  else .ok none

/-- Python `value >= cf` where `value` came out of a JSON mapping: numbers
and booleans compare (`True`/`False` are `1`/`0`), anything else raises a
`TypeError`. -/
def pyGeR (v : Json) (cf : Rat) : Except PyErr Bool :=
  match v with
  | .num q => .ok (cf ≤ q)
  | .bool b => .ok (cf ≤ if b then (1 : Rat) else 0)
  | _ => .error .typeError

/-- The generator inside `check_category`:
`any(mc.upper() == category_pl.upper() and meta_categories[mc] >= cf
for mc in meta_categories)`, with Python's short-circuit `and` (the score
comparison only runs on a name match, and may raise). -/
def anyMatch (category_pl : String) (cf : Rat) :
    List (String × Json) → Except PyErr Bool
  | [] => .ok false
  | (k, v) :: rest =>
    if pyUpper k == pyUpper category_pl then
      match pyGeR v cf with
      | .error e => .error e
      | .ok true => .ok true
      | .ok false => anyMatch category_pl cf rest
    else anyMatch category_pl cf rest

/-- Model of `meta.get("category", {})` followed by dict iteration: absent keys give
the empty mapping; a non-mapping value cannot be indexed by its members and
surfaces as a `TypeError`. -/
def metaGetCats (meta : List (String × Json)) : Except PyErr (List (String × Json)) :=
  match objGet meta "category" with
  | none => .ok []
  | some (.obj kvs) => .ok kvs
  | some _ => .error .typeError

/-- The category mapping `check_category` scans, for a well-formed `meta`. -/
def metaCatsList (meta : List (String × Json)) : List (String × Json) :=
  match objGet meta "category" with
  | some (.obj kvs) => kvs
  | _ => []

/-- The `category_pl` computation of the loop body:
`self.__get_pl_category(category, lang) if lang != "pl" else category`. -/
def resolveCategory (cpl cen : List String) (lang category : String) :
    Except PyErr (Option String) :=
  if !(lang == "pl") then get_pl_category cpl cen category lang
  else .ok (some category)

/-- The `for category in categories` loop of `check_category`, with the
`if category_pl:` truthiness guard (both `None` and `""` are skipped). -/
def check_category_loop (cpl cen : List String) (meta : List (String × Json))
    (cf : Rat) (lang : String) : List String → Except PyErr Bool
  | [] => .ok false
  | category :: rest =>
    match resolveCategory cpl cen lang category with
    | .error e => .error e
    | .ok none => check_category_loop cpl cen meta cf lang rest
    | .ok (some s) =>
      if s == "" then check_category_loop cpl cen meta cf lang rest
      else
        match metaGetCats meta with
        | .error e => .error e
        | .ok mcats =>
          match anyMatch s cf mcats with
          | .error e => .error e
          | .ok true => .ok true
          | .ok false => check_category_loop cpl cen meta cf lang rest

/-- Model of `CategoryManager.check_category meta categories cf lang`, over the two
loaded label lists.  `meta` is the metadata dict (`None` and `{}` coincide
in the model as the empty list). -/
def check_category (cpl cen : List String) (meta : List (String × Json))
    (categories : List String) (cf : Rat) (lang : String) : Except PyErr Bool :=
  if meta.isEmpty || categories.isEmpty then .ok false
  else check_category_loop cpl cen meta cf lang categories

/-! ### Speakleash (the catalog) -/

/-- Python `"name" in item` for a registry entry: key membership on a dict,
substring containment on a string, element equality on a list; anything
else is not a container and raises `TypeError`. -/
def item_has_name : Json → Except PyErr Bool
  | .obj kvs => .ok (kvs.any (fun kv => kv.1 == "name"))
  | .str s => .ok (containsSubL "name".data s.data)
  | .arr xs => .ok (xs.any (fun j => match j with | .str s => s == "name" | _ => false))
  | _ => .error .typeError

/-- Python `item["name"]`: value lookup on a dict (`KeyError` when absent);
strings and lists reject string subscripts with `TypeError`. -/
def item_name : Json → Except PyErr Json
  | .obj kvs =>
    match objGet kvs "name" with
    | some v => .ok v
    | none => .error .keyError
  | _ => .error .typeError

/-- The construction loop of `Speakleash.__init__`: one dataset handle (here
represented by its `name`) per entry for which `"name" in item` holds. -/
def build_datasets : List Json → Except PyErr (List Json)
  | [] => .ok []
  | item :: rest =>
    match item_has_name item with
    | .error e => .error e
    | .ok false => build_datasets rest
    | .ok true =>
      match item_name item with
      | .error e => .error e
      | .ok n =>
        match build_datasets rest with
        | .error e => .error e
        | .ok ds => .ok (n :: ds)

/-- Model of `Speakleash.__init__` after the registry fetch: `names` is the value
`get_structure` returned for the listing URL.  A falsy `names` (fetch
failure, `null`, `[]`, …) yields no handles; iterating a dict yields its
keys and iterating a string yields its characters, per Python. -/
def speakleash_init (names : Json) : Except PyErr (List Json) :=
  if names.truthy then
    match names with
    | .arr items => build_datasets items
    | .obj kvs => build_datasets (kvs.map (fun kv => .str kv.1))
    | .str s => build_datasets (s.data.map (fun c => .str (String.mk [c])))
    | _ => .error .typeError
  else .ok []

/-! ### SpeakleashDataset -/

/-- The local data-file store: association list from paths to byte sizes
(`os.path.getsize`); only sizes matter to the integrity check. -/
def DataFiles : Type := List (String × Nat)

/-- Model of `os.path.getsize` on an existing path. -/
def getFileSize (files : DataFiles) (p : String) : Option Nat :=
  (files.find? (fun kv => kv.1 == p)).map (fun kv => kv.2)

/-- Writing the downloaded bytes to `p` leaves a file of that size. -/
def setFileSize (files : DataFiles) (p : String) (sz : Nat) : DataFiles :=
  (p, sz) :: files.filter (fun kv => !(kv.1 == p))

/-- Python `size == manifest_value` for an `int` size: number and boolean
manifest values compare numerically, every other shape is unequal. -/
def pyEqNum (j : Json) (n : Nat) : Bool :=
  match j with
  | .num q => q == (n : Rat)
  | .bool b => (if b then (1 : Rat) else 0) == (n : Rat)
  | _ => false

/-- Model of `SpeakleashDataset.jsonl_zst_file_size`: `manifest.get('file_size', 0)`. -/
def jsonl_zst_file_size (manifest : List (String × Json)) : Json :=
  pyDictGet manifest "file_size" (.num 0)

/-- Result of `SpeakleashDataset.check_file`: the returned pair, the data
files afterwards, and how many download attempts were made. -/
structure CheckFileResult where
  flag : Bool
  path : String
  files : DataFiles
  downloads : Nat

/-- The `file_json_zst_exists` test of `check_file`: the file exists and its
size equals `jsonl_zst_file_size`. -/
def file_exists_valid (manifest : List (String × Json)) (files : DataFiles)
    (file_path : String) : Bool :=
  match getFileSize files file_path with
  | some sz => pyEqNum (jsonl_zst_file_size manifest) sz
  | none => false

/-- Model of `SpeakleashDataset.check_file`, with `_download_file` inlined: a valid
local file short-circuits; otherwise the data file is downloaded once via
`WebRequester.download_file` (whose transport errors propagate, see
`download_file`), returning `(True, path)` on success and `(False, "")` on
a size mismatch. -/
def check_file (net : Net) (dir baseUrl name : String)
    (manifest : List (String × Json)) (files : DataFiles) :
    Except NetErr CheckFileResult :=
  let file_name := name ++ ".jsonl.zst"
  let file_path := pathJoin dir file_name
  if file_exists_valid manifest files file_path then
    .ok ⟨true, file_path, files, 0⟩
  else
    match download_file (net (baseUrl ++ name ++ ".jsonl.zst")) with
    | .error e => .error e
    | .ok res =>
      let files2 := setFileSize files file_path res.fileBytes.length
      if res.flag then .ok ⟨true, file_path, files2, 1⟩
      else .ok ⟨false, "", files2, 1⟩

/-- Python `stat.get(arg, {})` inside `_get_stat`: fine on a dict, but a
non-dict has no `get` attribute and raises `AttributeError`. -/
def pyGetAttr (j : Json) (k : String) : Except PyErr Json :=
  match j with
  | .obj kvs => .ok (pyDictGet kvs k (.obj []))
  | _ => .error .attributeError

/-- The `for arg in args` loop of `_get_stat`. -/
def get_stat_loop : Json → List String → Except PyErr Json
  | stat, [] => .ok stat
  | stat, a :: rest =>
    match pyGetAttr stat a with
    | .error e => .error e
    | .ok s => get_stat_loop s rest

/-- Model of `SpeakleashDataset._get_stat(*args)`. -/
def get_stat (manifest : List (String × Json)) (args : List String) :
    Except PyErr Json :=
  get_stat_loop (pyDictGet manifest "stats" (.obj [])) args

/-- Model of `SpeakleashDataset.description`. -/
def description (manifest : List (String × Json)) : Json :=
  pyDictGet manifest "description" (.str "")

/-- Model of `SpeakleashDataset.license`. -/
def license (manifest : List (String × Json)) : Json :=
  pyDictGet manifest "license" (.str "")

/-- Model of `SpeakleashDataset.category`. -/
def category (manifest : List (String × Json)) : Json :=
  pyDictGet manifest "category" (.str "")

/-- Model of `SpeakleashDataset.sources`. -/
def sources (manifest : List (String × Json)) : Json :=
  pyDictGet manifest "sources" (.obj [])

/-- Model of `SpeakleashDataset.categories`: `manifest.get('category=95%', {})`. -/
def categories95 (manifest : List (String × Json)) : Json :=
  pyDictGet manifest "category=95%" (.obj [])

/-- Model of `SpeakleashDataset.characters`. -/
def characters (manifest : List (String × Json)) : Except PyErr Json :=
  get_stat manifest ["characters"]

/-- Model of `SpeakleashDataset.quality`. -/
def quality (manifest : List (String × Json)) : Except PyErr Json :=
  get_stat manifest ["quality"]

/-- Model of `SpeakleashDataset.documents`. -/
def documents (manifest : List (String × Json)) : Except PyErr Json :=
  get_stat manifest ["documents"]

/-- Model of `SpeakleashDataset.stopwords`. -/
def stopwords (manifest : List (String × Json)) : Except PyErr Json :=
  get_stat manifest ["stopwords"]

/-- Model of `SpeakleashDataset.nouns`. -/
def nouns (manifest : List (String × Json)) : Except PyErr Json :=
  get_stat manifest ["nouns"]

/-- Model of `SpeakleashDataset.verbs`. -/
def verbs (manifest : List (String × Json)) : Except PyErr Json :=
  get_stat manifest ["verbs"]

/-- Model of `SpeakleashDataset.symbols`. -/
def symbols (manifest : List (String × Json)) : Except PyErr Json :=
  get_stat manifest ["symbols"]

/-- Model of `SpeakleashDataset.punctuations`. -/
def punctuations (manifest : List (String × Json)) : Except PyErr Json :=
  get_stat manifest ["punctuations"]

/-- Model of `SpeakleashDataset.sentences`. -/
def sentences (manifest : List (String × Json)) : Except PyErr Json :=
  get_stat manifest ["sentences"]

/-- Model of `SpeakleashDataset.words`. -/
def words (manifest : List (String × Json)) : Except PyErr Json :=
  get_stat manifest ["words"]

/-- Python `x != 0` for a JSON-shaped `x`: numeric for numbers and booleans
(`False == 0`, `True == 1`), and `True` for every other shape (an empty
dict is not equal to `0`). -/
def pyNeZero : Json → Bool
  | .num q => !(q == 0)
  | .bool b => b
  | _ => true

/-- The `any(... != 0 ...)` generator of `quality_metrics`. -/
def quality_any (manifest : List (String × Json)) : List String → Except PyErr Bool
  | [] => .ok false
  | q :: rest =>
    match get_stat manifest ["quality", q] with
    | .error e => .error e
    | .ok v => if pyNeZero v then .ok true else quality_any manifest rest

/-- Model of `SpeakleashDataset.quality_metrics`:
`any(self._get_stat('quality', q) != 0 for q in ['HIGH', 'LOW', 'MEDIUM'])`. -/
def quality_metrics (manifest : List (String × Json)) : Except PyErr Bool :=
  quality_any manifest ["HIGH", "LOW", "MEDIUM"]

/-- The `name` field of a registry entry, when the entry is an object that
carries one. -/
def itemNameOf : Json → Option Json
  | .obj kvs => objGet kvs "name"
  | _ => none

/-! ### Concrete fixtures used by the witnesses -/

/-- A network whose every URL answers 2xx with the JSON body `[{"name":"a"}]`. -/
def tnet : Net := fun _ =>
  .ok ⟨true, "x", some (.arr [.obj [("name", .str "a")]]), some 0, []⟩

/-- A network on which every request raises a transport error. -/
def fnet : Net := fun _ => .error .connectionError

/-- A stand-in digest function for concrete runs. -/
def tmd5 : String → String := fun s => s

/-- A concrete instant. -/
def t0 : DateTime := ⟨10, 12, 2026, 8⟩

/-- A second concrete instant, in a different hourly bucket than `t0`. -/
def t1 : DateTime := ⟨10, 12, 2026, 9⟩

/-! ### Basic lemmas -/

theorem load_json_save (data : Json) (file : String) (fs : FS) :
    load_json (save_json data file fs) file = some data := by
  simp [load_json, save_json]

theorem stripPrefixL_append (p s : List Char) : stripPrefixL p (p ++ s) = some s := by
  induction p with
  | nil => rfl
  | cons c cs ih => simp [stripPrefixL, ih]

theorem stripSuffixL_append (suf s : List Char) : stripSuffixL suf (s ++ suf) = some s := by
  simp [stripSuffixL, List.reverse_append, stripPrefixL_append]

theorem hasChar_append (c : Char) (a b : List Char) :
    hasChar c (a ++ b) = (hasChar c a || hasChar c b) := by
  induction a with
  | nil => simp [hasChar]
  | cons x xs ih => simp [hasChar, ih, Bool.or_assoc]

theorem digitChar_ne_slash (n : Nat) : (digitChar n == Char.ofNat 47) = false := by
  have h : n % 10 = 0 ∨ n % 10 = 1 ∨ n % 10 = 2 ∨ n % 10 = 3 ∨ n % 10 = 4 ∨
      n % 10 = 5 ∨ n % 10 = 6 ∨ n % 10 = 7 ∨ n % 10 = 8 ∨ n % 10 = 9 := by omega
  unfold digitChar
  rcases h with h | h | h | h | h | h | h | h | h | h <;> rw [h] <;> decide

theorem two_noSlash (n : Nat) : hasChar (Char.ofNat 47) (two n).data = false := by
  simp [two, hasChar, digitChar_ne_slash]

theorem digitChar_ne_slash' (n : Nat) : ¬ digitChar n = Char.ofNat 47 := by
  simpa using digitChar_ne_slash n

theorem underscore_ne_slash : (Char.ofNat 95 == Char.ofNat 47) = false := by decide

theorem bucketCore_noSlash (b : Bool) (t : DateTime) :
    hasChar (Char.ofNat 47) (bucketCore b t).data = false := by
  cases b <;>
    simp [bucketCore, String.data_append, hasChar_append, hasChar, two_noSlash,
      underscore_ne_slash, two, digitChar_ne_slash']

theorem glob_match_of_shape (dir hash : String) (mid : List Char) (path : String)
    (hm : hasChar (Char.ofNat 47) mid = false)
    (hp : path.data = (pathJoin dir (hash ++ "-")).data ++ (mid ++ (".json").data)) :
    glob_match dir hash path = true := by
  unfold glob_match
  rw [hp, stripPrefixL_append]
  simp [stripSuffixL_append, hm]

theorem glob_match_bucket (dir hash : String) (b : Bool) (t : DateTime) :
    glob_match dir hash (pathJoin dir (hash ++ strftimeBucket b t ++ ".json")) = true := by
  apply glob_match_of_shape dir hash (bucketCore b t).data
  · exact bucketCore_noSlash b t
  · simp [pathJoin, strftimeBucket, String.data_append, List.append_assoc]

theorem bucket_path_inj (dir hash : String) (ts1 ts2 : String)
    (h : pathJoin dir (hash ++ ts1 ++ ".json") = pathJoin dir (hash ++ ts2 ++ ".json")) :
    ts1 = ts2 := by
  have h2 := congrArg String.data h
  simp only [pathJoin, String.data_append, List.append_assoc] at h2
  have hd : ts1.data = ts2.data := by
    simpa using h2
  cases ts1
  cases ts2
  exact congrArg String.mk hd

theorem download_loop_spec (cs : List (List Nat)) :
    ∀ n acc, download_loop cs n acc = (n + cs.flatten.length, acc ++ cs.flatten) := by
  induction cs with
  | nil => intro n acc; simp [download_loop]
  | cons c rest ih =>
    intro n acc
    simp [download_loop, ih, Nat.add_assoc, List.append_assoc]

/-- Unfolding equation of `get_structure` in terms of `structFile`. -/
theorem get_structure_eq (net : Net) (md5 : String → String) (hourly : Bool)
    (t : DateTime) (dir : String) (fs : FS) (url : String) :
    get_structure net md5 hourly t dir fs url =
      match cacheHit (load_json fs (structFile md5 hourly t dir url)) with
      | some d => ⟨d, fs, false⟩
      | none =>
        ⟨get_json net url,
          save_json (get_json net url) (structFile md5 hourly t dir url)
            (remove_old_files dir (md5 url) fs), true⟩ := rfl

/-- Everything in the filesystem after a refetch either is the fresh bucket
file or survived the glob purge. -/
theorem mem_save_remove (data : Json) (file dir hash : String) (fs : FS) :
    ∀ p ∈ (save_json data file (remove_old_files dir hash fs)).map Prod.fst,
      p = file ∨ glob_match dir hash p = false := by
  intro p hp
  simp only [save_json, remove_old_files, List.map_cons, List.mem_cons, List.mem_map,
    List.mem_filter] at hp
  rcases hp with hp | ⟨kv, ⟨⟨hkv, hglob⟩, hfile⟩, hfst⟩
  · exact Or.inl hp
  · right
    rw [← hfst]
    simpa using hglob

/-- The fresh bucket file occurs exactly once after a save. -/
theorem count_save (data : Json) (file : String) (fs0 : FS) :
    ((save_json data file fs0).map Prod.fst).count file = 1 := by
  simp only [save_json, List.map_cons, List.count_cons_self]
  have hnot : file ∉ (fs0.filter (fun kv => !(kv.1 == file))).map Prod.fst := by
    simp only [List.mem_map, List.mem_filter, not_exists]
    rintro kv ⟨⟨hkv, hne⟩, hfst⟩
    simp [hfst] at hne
  rw [List.count_eq_zero.mpr hnot]

/-- C1: for every URL, if `get_structure` is called twice within the same
time bucket and the first call obtained a structure (a truthy value), the
second call performs no network fetch and returns a result identical to the
first call's result — a cache hit read from the bucket file. -/
theorem structure_cache_second_call_hit (net : Net) (md5 : String → String)
    (hourly : Bool) (t : DateTime) (dir : String) (fs : FS) (url : String)
    (h : (get_structure net md5 hourly t dir fs url).data.truthy = true) :
    (get_structure net md5 hourly t dir
        (get_structure net md5 hourly t dir fs url).fs url).fetched = false ∧
    (get_structure net md5 hourly t dir
        (get_structure net md5 hourly t dir fs url).fs url).data =
      (get_structure net md5 hourly t dir fs url).data := by
  cases hc : cacheHit (load_json fs (structFile md5 hourly t dir url)) with
  | some d =>
    simp only [get_structure_eq, hc] at h ⊢
    constructor <;> trivial
  | none =>
    simp only [get_structure_eq, hc] at h ⊢
    simp only [load_json_save, cacheHit, h, if_true]
    constructor <;> trivial

/-- C1 witness: a concrete fresh-cache run, exercised end to end. -/
theorem structure_cache_second_call_hit_witness :
    (get_structure tnet tmd5 true t0 "cache"
        (get_structure tnet tmd5 true t0 "cache" [] "u").fs "u").fetched = false ∧
    (get_structure tnet tmd5 true t0 "cache"
        (get_structure tnet tmd5 true t0 "cache" [] "u").fs "u").data =
      (get_structure tnet tmd5 true t0 "cache" [] "u").data :=
  structure_cache_second_call_hit tnet tmd5 true t0 "cache" [] "u" (by decide)

/-- C2: after `get_structure` misses the current bucket and refetches, every
cache file matching the URL's digest pattern is the current bucket file, the
current bucket file exists exactly once, and no file for a different bucket
of that URL remains. -/
theorem structure_cache_purges_old_buckets (net : Net) (md5 : String → String)
    (hourly : Bool) (t : DateTime) (dir : String) (fs : FS) (url : String)
    (h : (get_structure net md5 hourly t dir fs url).fetched = true) :
    (∀ p ∈ ((get_structure net md5 hourly t dir fs url).fs).map Prod.fst,
        glob_match dir (md5 url) p = true → p = structFile md5 hourly t dir url) ∧
    (((get_structure net md5 hourly t dir fs url).fs).map Prod.fst).count
        (structFile md5 hourly t dir url) = 1 ∧
    (∀ (hourly2 : Bool) (t2 : DateTime),
        strftimeBucket hourly2 t2 ≠ strftimeBucket hourly t →
        pathJoin dir (md5 url ++ strftimeBucket hourly2 t2 ++ ".json") ∉
          ((get_structure net md5 hourly t dir fs url).fs).map Prod.fst) := by
  cases hc : cacheHit (load_json fs (structFile md5 hourly t dir url)) with
  | some d => simp [get_structure_eq, hc] at h
  | none =>
    simp only [get_structure_eq, hc]
    refine ⟨?_, ?_, ?_⟩
    · intro p hp hglob
      rcases mem_save_remove _ _ _ _ _ p hp with hfile | hfalse
      · exact hfile
      · rw [hglob] at hfalse
        cases hfalse
    · exact count_save _ _ _
    · intro hourly2 t2 hne hp
      have hglob := glob_match_bucket dir (md5 url) hourly2 t2
      rcases mem_save_remove _ _ _ _ _ _ hp with hfile | hfalse
      · exact hne (bucket_path_inj dir (md5 url) _ _ hfile)
      · rw [hglob] at hfalse
        cases hfalse

/-- C2 witness: a stale hourly-bucket file from one hour earlier is gone
after the refetch. -/
theorem structure_cache_purges_old_buckets_witness :
    pathJoin "cache" (tmd5 "u" ++ strftimeBucket true t0 ++ ".json") ∉
      ((get_structure tnet tmd5 true t1 "cache"
          [(pathJoin "cache" (tmd5 "u" ++ strftimeBucket true t0 ++ ".json"),
            Json.num 1)] "u").fs).map Prod.fst :=
  (structure_cache_purges_old_buckets tnet tmd5 true t1 "cache"
      [(pathJoin "cache" (tmd5 "u" ++ strftimeBucket true t0 ++ ".json"),
        Json.num 1)] "u" (by decide)).2.2 true t0 (by decide)

/-- C3: `download_file` returns `false` whenever the number of bytes written
differs from the declared content length and `true` when they are exactly
equal; in particular a declared length of `0` with zero bytes written
returns `true`. -/
theorem download_file_integrity (r : GetResponse) :
    download_file (.ok r) =
      .ok ⟨r.contentLength.getD 0 == r.chunks.flatten.length, r.chunks.flatten⟩ ∧
    (r.chunks.flatten.length = r.contentLength.getD 0 →
      download_file (.ok r) = .ok ⟨true, r.chunks.flatten⟩) ∧
    (r.chunks.flatten.length ≠ r.contentLength.getD 0 →
      download_file (.ok r) = .ok ⟨false, r.chunks.flatten⟩) ∧
    (r.contentLength.getD 0 = 0 → r.chunks = [] →
      download_file (.ok r) = .ok ⟨true, []⟩) := by
  have he : download_file (.ok r) =
      .ok ⟨r.contentLength.getD 0 == r.chunks.flatten.length, r.chunks.flatten⟩ := by
    simp [download_file, download_loop_spec]
  refine ⟨he, ?_, ?_, ?_⟩
  · intro hlen
    rw [he, ← hlen]
    simp
  · intro hlen
    rw [he, beq_eq_false_iff_ne.mpr (Ne.symm hlen)]
  · intro h0 hnil
    rw [he]
    simp [h0, hnil]

/-- C3 witness: a complete transfer succeeds, a truncated one fails, and an
empty transfer with declared length `0` succeeds. -/
theorem download_file_integrity_witness :
    download_file (.ok ⟨true, "", none, some 2, [[7], [8]]⟩) = .ok ⟨true, [7, 8]⟩ ∧
    download_file (.ok ⟨true, "", none, some 5, [[7]]⟩) = .ok ⟨false, [7]⟩ ∧
    download_file (.ok ⟨true, "", none, some 0, []⟩) = .ok ⟨true, []⟩ :=
  ⟨(download_file_integrity ⟨true, "", none, some 2, [[7], [8]]⟩).2.1 (by decide),
   (download_file_integrity ⟨true, "", none, some 5, [[7]]⟩).2.2.1 (by decide),
   (download_file_integrity ⟨true, "", none, some 0, []⟩).2.2.2 (by decide) rfl⟩

/-- C4 counterexample: a transport error propagates out of `download_file`
(no `try` in the source), the category loader raises `AttributeError` when
the remote label fetch fails with no usable cache, and a non-2xx response is
not treated as failure: its body is written to the file and success is
reported when the length matches the declared content length. -/
theorem error_propagation_counterexample :
    download_file (Except.error NetErr.connectionError) =
      Except.error NetErr.connectionError ∧
    categories_load fnet none "pl" = Except.error PyErr.attributeError ∧
    download_file (Except.ok ⟨false, "", none, some 3, [[104, 105, 33]]⟩) =
      Except.ok ⟨true, [104, 105, 33]⟩ :=
  ⟨rfl, rfl, rfl⟩

/-- C4 amended: transport failures do not escape `get_json`, `get_text` or
`get_structure`, which degrade to null/none results; but `download_file`
propagates transport exceptions and performs no status check, and the
category loader raises when the remote label fetch fails with no usable
cache. -/
theorem error_containment_amended (net : Net) (e : NetErr)
    (h : ∀ u, net u = .error e) (md5 : String → String) (hourly : Bool)
    (t : DateTime) (dir url lang : String) :
    get_json net url = .null ∧
    get_text net url = none ∧
    (get_structure net md5 hourly t dir [] url).data = .null ∧
    download_file (net url) = .error e ∧
    categories_load net none lang = .error .attributeError := by
  have hj : get_json net url = .null := by
    simp [get_json, h url]
  refine ⟨hj, ?_, ?_, ?_, ?_⟩
  · simp [get_text, h url]
  · rw [get_structure_eq]
    simp [load_json, cacheHit, hj]
  · rw [h url]
    rfl
  · simp [categories_load, categories_fetch, get_text, h (categoriesUrl lang)]

/-- C4 amended witness: the all-failing network, run concretely. -/
theorem error_containment_amended_witness :
    get_json fnet "u" = .null ∧ get_text fnet "u" = none ∧
    (get_structure fnet tmd5 true t0 "cache" [] "u").data = .null ∧
    download_file (fnet "u") = .error .connectionError ∧
    categories_load fnet none "pl" = .error .attributeError :=
  error_containment_amended fnet .connectionError (fun _ => rfl) tmd5 true t0
    "cache" "u" "pl"

/-- C5: at a concrete input whose requested category name is missing from
the secondary-language list, `check_category` raises `ValueError` (from
`list.index` inside the translation helper) instead of silently skipping
the category as specified. -/
theorem check_category_missing_translation_raises :
    check_category ["NEWS_PL"] ["NEWS"]
        [("category", Json.obj [("NEWS", Json.num (mkRat 97 100))])]
        ["SPORT"] (mkRat 1 2) "en" = .error .valueError := by decide

/-- The inner `any(...)` generator returns `true` exactly when some key of
the scanned mapping matches case-insensitively with a passing score. -/
theorem anyMatch_ok (s : String) (cf : Rat) :
    ∀ (l : List (String × Json)) (b : Bool), anyMatch s cf l = .ok b →
      (b = true ↔ ∃ kv ∈ l, pyUpper kv.1 = pyUpper s ∧ pyGeR kv.2 cf = .ok true) := by
  intro l
  induction l with
  | nil =>
    intro b hb
    simp only [anyMatch, Except.ok.injEq] at hb
    subst hb
    simp
  | cons kv rest ih =>
    intro b hb
    rcases kv with ⟨k, v⟩
    simp only [anyMatch] at hb
    by_cases hk : (pyUpper k == pyUpper s) = true
    · rw [if_pos hk] at hb
      cases hg : pyGeR v cf with
      | error e => rw [hg] at hb; cases hb
      | ok bv =>
        rw [hg] at hb
        cases bv with
        | true =>
          injection hb with hb
          subst hb
          exact iff_of_true rfl ⟨(k, v), by simp, eq_of_beq hk, hg⟩
        | false =>
          rw [ih b hb]
          simp only [List.mem_cons]
          constructor
          · rintro ⟨kv, hkv, hup, hge⟩
            exact ⟨kv, Or.inr hkv, hup, hge⟩
          · rintro ⟨kv, hkv | hkv, hup, hge⟩
            · rcases hkv with rfl
              rw [hg] at hge
              cases hge
            · exact ⟨kv, hkv, hup, hge⟩
    · rw [if_neg hk] at hb
      rw [ih b hb]
      simp only [List.mem_cons]
      constructor
      · rintro ⟨kv, hkv, hup, hge⟩
        exact ⟨kv, Or.inr hkv, hup, hge⟩
      · rintro ⟨kv, hkv | hkv, hup, hge⟩
        · rcases hkv with rfl
          exact absurd (beq_of_eq hup) hk
        · exact ⟨kv, hkv, hup, hge⟩

/-- The `for category in categories` loop returns `true` exactly when some
requested name resolves to a non-empty primary label matching a key with a
passing score, provided the loop returns at all. -/
theorem check_category_loop_ok (cpl cen : List String) (meta : List (String × Json))
    (cf : Rat) (lang : String)
    (hwf : metaGetCats meta = .ok (metaCatsList meta)) :
    ∀ (cats : List String) (b : Bool),
      check_category_loop cpl cen meta cf lang cats = .ok b →
      (b = true ↔ ∃ c ∈ cats, ∃ s, resolveCategory cpl cen lang c = .ok (some s) ∧
          ¬s = "" ∧ ∃ kv ∈ metaCatsList meta,
            pyUpper kv.1 = pyUpper s ∧ pyGeR kv.2 cf = .ok true) := by
  intro cats
  induction cats with
  | nil =>
    intro b hb
    simp only [check_category_loop, Except.ok.injEq] at hb
    subst hb
    simp
  | cons c rest ih =>
    intro b hb
    simp only [check_category_loop] at hb
    split at hb
    · cases hb
    · rename_i hr
      rw [ih b hb]
      simp [hr]
    · rename_i s hr
      split at hb
      · rename_i hs
        rw [ih b hb]
        rcases eq_of_beq hs with rfl
        simp [hr]
      · rename_i hs
        split at hb
        · cases hb
        · rename_i mcats hm
          rw [hwf] at hm
          injection hm with hm
          subst hm
          split at hb
          · cases hb
          · rename_i ha
            injection hb with hb
            subst hb
            exact iff_of_true rfl ⟨c, by simp, s, hr,
              fun hempty => hs (beq_of_eq hempty),
              (anyMatch_ok s cf (metaCatsList meta) true ha).mp rfl⟩
          · rename_i ha
            rw [ih b hb]
            have hno := anyMatch_ok s cf (metaCatsList meta) false ha
            simp only [Bool.false_eq_true, false_iff] at hno
            simp only [not_exists, not_and] at hno
            simp only [List.mem_cons, exists_eq_or_imp, hr, Except.ok.injEq,
              Option.some.injEq]
            constructor
            · intro hex
              exact Or.inr hex
            · rintro (⟨s2, hs2, hs2e, kv, hkv, hup, hge⟩ | hex)
              · rcases hs2 with rfl
                exact absurd hge (hno kv hkv hup)
              · exact hex

/-- C6 counterexample: with `meta = {"category": {"": 0.97}}`,
`categories = [""]`, `cf = 1/2` and `lang = "pl"`, the requested name `""`
case-insensitively equals the key `""` whose score meets the threshold, yet
`check_category` returns `False`: the `if category_pl:` truthiness guard
skips falsy (empty) requested names, so the claimed iff fails. -/
theorem check_category_spec_counterexample :
    check_category [] [] [("category", Json.obj [("", Json.num (mkRat 97 100))])]
        [""] (mkRat 1 2) "pl" = .ok false ∧
    pyUpper "" = pyUpper "" ∧
    pyGeR (Json.num (mkRat 97 100)) (mkRat 1 2) = .ok true :=
  ⟨by decide, rfl, by decide⟩

/-- C6 amended: for non-empty `meta` and `categories` (and a `meta` whose
`category` entry is a mapping, so that scanning it cannot raise), whenever
`check_category` returns a boolean at all, it returns `true` iff at least
one requested category name whose primary-language resolution succeeds and
is non-empty case-insensitively equals a key of the category mapping with
score `≥ cf`; it returns `false` immediately when `meta` or `categories` is
empty; the two concrete example calls evaluate as the spec states. -/
theorem check_category_spec :
    (∀ (cpl cen : List String) (meta : List (String × Json)) (cats : List String)
        (cf : Rat) (lang : String) (b : Bool),
      metaGetCats meta = .ok (metaCatsList meta) →
      check_category cpl cen meta cats cf lang = .ok b →
      (b = true ↔ ¬meta = [] ∧ ¬cats = [] ∧ ∃ c ∈ cats, ∃ s,
          resolveCategory cpl cen lang c = .ok (some s) ∧ ¬s = "" ∧
          ∃ kv ∈ metaCatsList meta, pyUpper kv.1 = pyUpper s ∧
            pyGeR kv.2 cf = .ok true)) ∧
    check_category ["NEWS_PL"] ["NEWS"]
        [("category", .obj [("NEWS", .num (mkRat 97 100))])] ["NEWS"]
        (mkRat 95 100) "pl" = .ok true ∧
    check_category ["NEWS_PL"] ["NEWS"]
        [("category", .obj [("NEWS", .num (mkRat 97 100))])] ["NEWS"]
        (mkRat 99 100) "pl" = .ok false := by
  refine ⟨?_, by decide, by decide⟩
  intro cpl cen meta cats cf lang b hwf hb
  simp only [check_category] at hb
  by_cases hg : (meta.isEmpty || cats.isEmpty) = true
  · rw [if_pos hg] at hb
    injection hb with hb
    subst hb
    simp only [Bool.or_eq_true, List.isEmpty_iff] at hg
    rcases hg with hg | hg <;> simp [hg]
  · rw [if_neg hg] at hb
    rw [check_category_loop_ok cpl cen meta cf lang hwf cats b hb]
    simp only [Bool.or_eq_true, List.isEmpty_iff, not_or] at hg
    simp [hg.1, hg.2]

/-- C6 witness: the amended iff, instantiated at the spec's own example. -/
theorem check_category_spec_witness :
    ∃ c ∈ ["NEWS"], ∃ s,
      resolveCategory ["NEWS_PL"] ["NEWS"] "pl" c = .ok (some s) ∧ ¬s = "" ∧
      ∃ kv ∈ metaCatsList [("category", Json.obj [("NEWS", Json.num (mkRat 97 100))])],
        pyUpper kv.1 = pyUpper s ∧ pyGeR kv.2 (mkRat 95 100) = .ok true :=
  (((check_category_spec.1 ["NEWS_PL"] ["NEWS"]
      [("category", Json.obj [("NEWS", Json.num (mkRat 97 100))])] ["NEWS"]
      (mkRat 95 100) "pl" true rfl (by decide)).mp rfl).2).2

/-- A dict some of whose keys is `"name"` yields a value for `"name"`. -/
theorem objGet_of_any_name (kvs : List (String × Json))
    (h : kvs.any (fun kv => kv.1 == "name") = true) :
    ∃ v, objGet kvs "name" = some v := by
  rw [List.any_eq_true] at h
  rcases h with ⟨kv, hmem, hname⟩
  have hsome : (kvs.find? (fun kv => kv.1 == "name")).isSome = true := by
    rw [List.find?_isSome]
    exact ⟨kv, hmem, hname⟩
  rcases Option.isSome_iff_exists.mp hsome with ⟨kv2, hkv2⟩
  exact ⟨kv2.2, by simp [objGet, hkv2]⟩

/-- A dict none of whose keys is `"name"` yields no value for `"name"`. -/
theorem objGet_of_no_name (kvs : List (String × Json))
    (h : kvs.any (fun kv => kv.1 == "name") = false) :
    objGet kvs "name" = none := by
  have hall := List.any_eq_false.mp h
  have hfind : kvs.find? (fun kv => kv.1 == "name") = none :=
    List.find?_eq_none.mpr hall
  simp [objGet, hfind]

/-- The construction loop keeps exactly the entries carrying a `name`. -/
theorem build_datasets_objs : ∀ (items : List Json),
    (∀ i ∈ items, ∃ kvs, i = Json.obj kvs) →
    build_datasets items = .ok (items.filterMap itemNameOf) := by
  intro items
  induction items with
  | nil => intro _; rfl
  | cons i rest ih =>
    intro h
    obtain ⟨kvs, rfl⟩ := h (by exact i) (by simp)
    have hrest := ih (fun j hj => h j (by simp [hj]))
    cases hn : kvs.any (fun kv => kv.1 == "name") with
    | true =>
      obtain ⟨v, hv⟩ := objGet_of_any_name kvs hn
      simp [build_datasets, item_has_name, item_name, hn, hv, hrest, itemNameOf]
    | false =>
      have hv := objGet_of_no_name kvs hn
      simp [build_datasets, item_has_name, hn, hrest, itemNameOf, hv]

/-- C7: catalog construction creates exactly one dataset handle per listed
entry with a `name` field (in order) and none for entries without one, and
a registry fetch failure yields an empty catalog rather than an error. -/
theorem catalog_one_handle_per_named_entry :
    (∀ items : List Json, (∀ i ∈ items, ∃ kvs, i = Json.obj kvs) →
      speakleash_init (.arr items) = .ok (items.filterMap itemNameOf)) ∧
    speakleash_init (.arr [.obj [("name", .str "a")], .obj [("no_name", .str "b")]]) =
      .ok [.str "a"] ∧
    (∀ (net : Net) (e : NetErr) (md5 : String → String) (hourly : Bool)
        (t : DateTime) (dir url : String), net url = .error e →
      speakleash_init (get_structure net md5 hourly t dir [] url).data = .ok []) := by
  refine ⟨?_, rfl, ?_⟩
  · intro items h
    cases items with
    | nil => rfl
    | cons i rest =>
      have he : speakleash_init (.arr (i :: rest)) = build_datasets (i :: rest) := by
        simp [speakleash_init, Json.truthy]
      rw [he]
      exact build_datasets_objs (i :: rest) h
  · intro net e md5 hourly t dir url hnet
    have hd : (get_structure net md5 hourly t dir [] url).data = .null := by
      rw [get_structure_eq]
      simp [load_json, cacheHit, get_json, hnet]
    rw [hd]
    rfl

/-- C7 witness: the general handle-per-entry rule and the failure case, run
on concrete inputs. -/
theorem catalog_one_handle_per_named_entry_witness :
    speakleash_init (.arr [.obj [("name", .str "a")], .obj [("name", .str "b")]]) =
      .ok ([Json.obj [("name", .str "a")], Json.obj [("name", .str "b")]].filterMap
        itemNameOf) ∧
    speakleash_init (get_structure fnet tmd5 true t0 "cache" [] "u").data = .ok [] :=
  ⟨catalog_one_handle_per_named_entry.1
      [Json.obj [("name", .str "a")], Json.obj [("name", .str "b")]]
      (by
        intro i hi
        simp only [List.mem_cons, List.mem_singleton] at hi
        rcases hi with rfl | rfl | h
        · exact ⟨_, rfl⟩
        · exact ⟨_, rfl⟩
        · cases h),
    catalog_one_handle_per_named_entry.2.2 fnet .connectionError tmd5 true t0
      "cache" "u" rfl⟩

/-- C8: `check_file` performs no download when the local data file exists
with byte size equal to the manifest's `file_size`; otherwise it triggers
exactly one download attempt, returning `(true, path)` on success and a
false flag (with an empty path) on an integrity failure. -/
theorem check_file_spec (net : Net) (dir baseUrl name : String)
    (manifest : List (String × Json)) (files : DataFiles) :
    (file_exists_valid manifest files (pathJoin dir (name ++ ".jsonl.zst")) = true →
      check_file net dir baseUrl name manifest files =
        .ok ⟨true, pathJoin dir (name ++ ".jsonl.zst"), files, 0⟩) ∧
    (∀ r : GetResponse,
      file_exists_valid manifest files (pathJoin dir (name ++ ".jsonl.zst")) = false →
      net (baseUrl ++ name ++ ".jsonl.zst") = .ok r →
      check_file net dir baseUrl name manifest files =
        .ok ⟨r.contentLength.getD 0 == r.chunks.flatten.length,
          if r.contentLength.getD 0 == r.chunks.flatten.length then
            pathJoin dir (name ++ ".jsonl.zst")
          else "",
          setFileSize files (pathJoin dir (name ++ ".jsonl.zst"))
            r.chunks.flatten.length, 1⟩) := by
  constructor
  · intro hv
    simp [check_file, hv]
  · intro r hv hr
    simp only [check_file, hv, Bool.false_eq_true, if_false, hr, download_file,
      download_loop_spec, Nat.zero_add, List.nil_append]
    by_cases hok : r.contentLength.getD 0 = (r.chunks.map List.length).sum
    · simp [hok]
    · simp [hok]

/-- C8 witness: a size-matching local file is reused without download; a
missing file triggers exactly one (here successful, zero-length) download. -/
theorem check_file_spec_witness :
    check_file tnet "dir" "http://b/" "ds" [("file_size", Json.num 7)]
        [(pathJoin "dir" ("ds" ++ ".jsonl.zst"), 7)] =
      .ok ⟨true, pathJoin "dir" ("ds" ++ ".jsonl.zst"),
        [(pathJoin "dir" ("ds" ++ ".jsonl.zst"), 7)], 0⟩ ∧
    check_file tnet "dir" "http://b/" "ds" [] [] =
      .ok ⟨true, pathJoin "dir" ("ds" ++ ".jsonl.zst"),
        setFileSize [] (pathJoin "dir" ("ds" ++ ".jsonl.zst")) 0, 1⟩ := by
  constructor
  · exact (check_file_spec tnet "dir" "http://b/" "ds" [("file_size", Json.num 7)]
      [(pathJoin "dir" ("ds" ++ ".jsonl.zst"), 7)]).1 (by decide)
  · have h := (check_file_spec tnet "dir" "http://b/" "ds" [] []).2
      ⟨true, "x", some (.arr [.obj [("name", .str "a")]]), some 0, []⟩ (by decide) rfl
    simpa using h

/-- A missing `stats` key makes `_get_stat` with one argument return the
empty mapping. -/
theorem pyDictGet_nil (k : String) (d : Json) : pyDictGet [] k d = d := by
  simp [pyDictGet, objGet]

theorem get_stat_missing (manifest : List (String × Json)) (k : String)
    (h : objGet manifest "stats" = none) : get_stat manifest [k] = .ok (.obj []) := by
  have hd : pyDictGet manifest "stats" (Json.obj []) = Json.obj [] := by
    simp [pyDictGet, h]
  simp [get_stat, get_stat_loop, pyGetAttr, hd, pyDictGet_nil]

/-- A `stats` mapping without the requested key also yields the empty
mapping. -/
theorem get_stat_sub_missing (manifest skvs : List (String × Json)) (k : String)
    (h : objGet manifest "stats" = some (.obj skvs)) (hk : objGet skvs k = none) :
    get_stat manifest [k] = .ok (.obj []) := by
  have hd : pyDictGet manifest "stats" (Json.obj []) = Json.obj skvs := by
    simp [pyDictGet, h]
  have hk2 : pyDictGet skvs k (Json.obj []) = Json.obj [] := by
    simp [pyDictGet, hk]
  simp [get_stat, get_stat_loop, pyGetAttr, hd, hk2]

/-- C9: every read accessor of a dataset handle returns its zero/empty
default when the corresponding manifest key is absent, and never raises on
missing keys (the statistics accessors return `.ok` of the empty mapping). -/
theorem manifest_accessor_defaults (manifest : List (String × Json)) :
    (objGet manifest "description" = none → description manifest = .str "") ∧
    (objGet manifest "license" = none → license manifest = .str "") ∧
    (objGet manifest "category" = none → category manifest = .str "") ∧
    (objGet manifest "sources" = none → sources manifest = .obj []) ∧
    (objGet manifest "category=95%" = none → categories95 manifest = .obj []) ∧
    (objGet manifest "file_size" = none → jsonl_zst_file_size manifest = .num 0) ∧
    (objGet manifest "stats" = none →
      characters manifest = .ok (.obj []) ∧ quality manifest = .ok (.obj []) ∧
      documents manifest = .ok (.obj []) ∧ stopwords manifest = .ok (.obj []) ∧
      nouns manifest = .ok (.obj []) ∧ verbs manifest = .ok (.obj []) ∧
      symbols manifest = .ok (.obj []) ∧ punctuations manifest = .ok (.obj []) ∧
      sentences manifest = .ok (.obj []) ∧ words manifest = .ok (.obj [])) ∧
    (∀ skvs, objGet manifest "stats" = some (.obj skvs) →
      (objGet skvs "characters" = none → characters manifest = .ok (.obj [])) ∧
      (objGet skvs "quality" = none → quality manifest = .ok (.obj []))) := by
  refine ⟨?_, ?_, ?_, ?_, ?_, ?_, ?_, ?_⟩
  · intro h; simp [description, pyDictGet, h]
  · intro h; simp [license, pyDictGet, h]
  · intro h; simp [category, pyDictGet, h]
  · intro h; simp [sources, pyDictGet, h]
  · intro h; simp [categories95, pyDictGet, h]
  · intro h; simp [jsonl_zst_file_size, pyDictGet, h]
  · intro h
    exact ⟨get_stat_missing manifest "characters" h, get_stat_missing manifest "quality" h,
      get_stat_missing manifest "documents" h, get_stat_missing manifest "stopwords" h,
      get_stat_missing manifest "nouns" h, get_stat_missing manifest "verbs" h,
      get_stat_missing manifest "symbols" h, get_stat_missing manifest "punctuations" h,
      get_stat_missing manifest "sentences" h, get_stat_missing manifest "words" h⟩
  · intro skvs h
    exact ⟨fun hk => get_stat_sub_missing manifest skvs "characters" h hk,
      fun hk => get_stat_sub_missing manifest skvs "quality" h hk⟩

/-- C9 witness: the empty manifest, read through each accessor. -/
theorem manifest_accessor_defaults_witness :
    description [] = .str "" ∧ license [] = .str "" ∧ category [] = .str "" ∧
    sources [] = .obj [] ∧ categories95 [] = .obj [] ∧
    jsonl_zst_file_size [] = .num 0 ∧ characters [] = .ok (.obj []) ∧
    words [] = .ok (.obj []) := by
  have h := manifest_accessor_defaults []
  exact ⟨h.1 rfl, h.2.1 rfl, h.2.2.1 rfl, h.2.2.2.1 rfl, h.2.2.2.2.1 rfl,
    h.2.2.2.2.2.1 rfl, (h.2.2.2.2.2.2.1 rfl).1,
    (h.2.2.2.2.2.2.1 rfl).2.2.2.2.2.2.2.2.2⟩

/-- C10: when the manifest has no `stats` key, or its `stats` mapping has no
`quality` entry, every statistic lookup yields the empty mapping, which is
Python-unequal to `0`, so `quality_metrics` returns `true`. -/
theorem quality_metrics_vacuous_true (manifest : List (String × Json)) :
    (objGet manifest "stats" = none → quality_metrics manifest = .ok true) ∧
    (∀ skvs, objGet manifest "stats" = some (.obj skvs) →
      objGet skvs "quality" = none → quality_metrics manifest = .ok true) := by
  constructor
  · intro h
    have hd : pyDictGet manifest "stats" (Json.obj []) = Json.obj [] := by
      simp [pyDictGet, h]
    simp [quality_metrics, quality_any, get_stat, get_stat_loop, pyGetAttr, hd,
      pyDictGet_nil, pyNeZero]
  · intro skvs h hq
    have hd : pyDictGet manifest "stats" (Json.obj []) = Json.obj skvs := by
      simp [pyDictGet, h]
    have hq2 : pyDictGet skvs "quality" (Json.obj []) = Json.obj [] := by
      simp [pyDictGet, hq]
    simp [quality_metrics, quality_any, get_stat, get_stat_loop, pyGetAttr, hd,
      hq2, pyDictGet_nil, pyNeZero]

/-- C10 witness: the empty manifest reports quality metrics as present. -/
theorem quality_metrics_vacuous_true_witness : quality_metrics [] = .ok true :=
  (quality_metrics_vacuous_true []).1 rfl

end Speakleash
